import Mathlib

/-!
# Verification of the acoustics_sandbox library against its specification

Shallow embedding of `src/equations.py` and `src/argo.py`. Python floats are
modelled as exact rationals (`ℚ`) where the source only uses rational
arithmetic, and as real numbers (`ℝ`) where the source calls `np.sin`,
`np.sqrt` or a non-integer power. Python exceptions are modelled with
`Except PyErr`.
-/

set_option linter.unusedVariables false

namespace AcousticsSandbox

/-- Python runtime failures observable from the embedded functions.
`typeError`, `nameError`, `valueError` and `zeroDivisionError` model the
built-in Python exceptions of the same names; `compileError` models a
module-level SyntaxError in a function body; `noQualifyingData` is the
not-found error of the specification's error taxonomy (never raised by the
source, present so theorems can state its absence). -/
inductive PyErr where
  | typeError (msg : String)
  | nameError (name : String)
  | valueError (msg : String)
  | zeroDivisionError
  | compileError
  | noQualifyingData
  deriving DecidableEq, Repr

/-! ## equations.py — rational-arithmetic functions -/

/-- `sound_speed_seawater_leroy69(depth, sal, temp)` from `src/equations.py`.
The source validates with non-strict bound checks (`temp < -2 or temp > 23`,
then `sal < 30 or sal > 40`, then `depth < 0 or depth > 500`), raising
`ValueError` with the quoted message at the first failed check, and otherwise
evaluates the Leroy 1969 polynomial (built in two statements, `c = ...` then
`c += ...`). -/
def sound_speed_seawater_leroy69 (depth sal temp : ℚ) : Except PyErr ℚ :=
  if temp < -2 ∨ temp > 23 then
    .error (.valueError "Water temperature must be -2 < T < 23")
  else if sal < 30 ∨ sal > 40 then
    .error (.valueError "Salinity must be 30 < S < 40")
  else if depth < 0 ∨ depth > 500 then
    .error (.valueError "Depth must be 0 < D < 500")
  else
    .ok ((1492.3 + 3 * (temp - 10) - 0.006 * (temp - 10) ^ 2 - 0.04 * (temp - 18) ^ 2)
      + (1.2 * (sal - 35) - 0.01 * (temp - 18) * (sal - 35) + depth / 61))

/-- The validation behaviour the evidence forces: errors exactly outside the
CLOSED intervals [-2, 23], [30, 40], [0, 500], checked in the order
temperature, salinity, depth, with the computed Leroy 1969 value otherwise.
Stated with interval membership so the equivalence with the source's
strict-comparison checks is a theorem, not a restatement. -/
def leroy69_amended_behaviour (depth sal temp : ℚ) : Except PyErr ℚ :=
  if temp ∈ Set.Icc (-2 : ℚ) 23 then
    if sal ∈ Set.Icc (30 : ℚ) 40 then
      if depth ∈ Set.Icc (0 : ℚ) 500 then
        .ok ((1492.3 + 3 * (temp - 10) - 0.006 * (temp - 10) ^ 2 - 0.04 * (temp - 18) ^ 2)
          + (1.2 * (sal - 35) - 0.01 * (temp - 18) * (sal - 35) + depth / 61))
      else .error (.valueError "Depth must be 0 < D < 500")
    else .error (.valueError "Salinity must be 30 < S < 40")
  else .error (.valueError "Water temperature must be -2 < T < 23")

/-- `sound_speed_sea_water_mackenzie81(depth, sal, temp)` from
`src/equations.py`, exactly as written: the published nine-term expression was
split over four lines without continuation characters, so the source is four
separate assignments, each starting from the previous value of `c`. -/
def sound_speed_sea_water_mackenzie81 (depth sal temp : ℚ) : ℚ :=
  let c1 := 1448.96 + 4.591 * temp - 5.304 * (10 : ℚ) ^ (-2 : ℤ) * temp ^ 2 + 2.374 * (10 : ℚ) ^ (-4 : ℤ)
  let c2 := c1 * temp ^ 3 + 1.340 * (sal - 35) + 1.630 * (10 : ℚ) ^ (-2 : ℤ) * depth + 1.675
  let c3 := c2 * (10 : ℚ) ^ (-7 : ℤ) * depth ^ 2 - 1.025 * (10 : ℚ) ^ (-2 : ℤ) * temp * (sal - 35) - 7.139
  let c4 := c3 * (10 : ℚ) ^ (-13 : ℤ) * temp * depth ^ 3
  c4

/-- Modelled from the spec: the nine-term Mackenzie (1981) sound-speed
equation that `sound_speed_sea_water_mackenzie81` is documented to compute —
the single closed-form expression whose coefficients appear, line-split, in
the source. -/
def mackenzie81_published (depth sal temp : ℚ) : ℚ :=
  1448.96 + 4.591 * temp - 5.304 * (10 : ℚ) ^ (-2 : ℤ) * temp ^ 2
    + 2.374 * (10 : ℚ) ^ (-4 : ℤ) * temp ^ 3
    + 1.340 * (sal - 35) + 1.630 * (10 : ℚ) ^ (-2 : ℤ) * depth
    + 1.675 * (10 : ℚ) ^ (-7 : ℤ) * depth ^ 2
    - 1.025 * (10 : ℚ) ^ (-2 : ℤ) * temp * (sal - 35)
    - 7.139 * (10 : ℚ) ^ (-13 : ℤ) * temp * depth ^ 3

/-- `sound_speed_sea_water_leroy08(depth, sal, temp, lat)` from
`src/equations.py`. Its single expression contains the undefined name `tmep`
(a typo for `temp` in the cubic temperature term), so every call raises
`NameError` before any value is produced. -/
def sound_speed_sea_water_leroy08 (depth sal temp lat : ℚ) : Except PyErr ℚ :=
  .error (.nameError "tmep")

/-- `sound_speed_seawater_leroy68(depth, lat)` from `src/equations.py`. Its
assignment line is syntactically invalid Python: an unbalanced closing
parenthesis, the bitwise operator `^` applied where `**` was meant, and the
undefined name `D`. The function body cannot even be compiled, modelled as a
`compileError` on every call. -/
def sound_speed_seawater_leroy68 (depth lat : ℝ) : Except PyErr ℝ :=
  .error .compileError

/-! ## equations.py — real-arithmetic functions -/

/-- `international_gravity_formula(lat, corrective_term=None)` from
`src/equations.py`, built in three statements exactly as the source, with the
optional corrective term added afterwards when supplied (`Option ℝ` models
the Python `None` default). -/
noncomputable def international_gravity_formula (lat : ℝ) (corrective_term : Option ℝ) : ℝ :=
  let g1 := 1 + 5.2788 * (10 : ℝ) ^ (-3 : ℤ) * (Real.sin (lat * Real.pi / 180)) ^ 2
  let g2 := g1 - 2.36 * (10 : ℝ) ^ (-5 : ℤ) * (Real.sin (lat * Real.pi / 180)) ^ 4
  let g3 := g2 * 9.78031
  match corrective_term with
  | none => g3
  | some c => g3 + c

/-- `pressure_to_depth_leroy98(press, lat, corrective_term=None)` from
`src/equations.py`. Its formula references the undefined name `P` (the
parameter is `press`) in the quadratic pressure term, so every call raises
`NameError` before a depth is computed or a corrective term applied. -/
def pressure_to_depth_leroy98 (press lat : ℝ) (corrective_term : Option ℝ) : Except PyErr ℝ :=
  .error (.nameError "P")

/-- A numpy floating-point result: a finite real, NaN (as produced by
`np.sqrt` of a negative), infinity (as produced by numpy float division by
zero), or a Python complex value (as produced by raising a negative float to
a non-integer power; the complex value itself is not tracked because the
functions are documented to return floats). -/
inductive NpVal where
  | fin (x : ℝ)
  | nan
  | inf
  | cplx

/-- `cutoff_frequency(c_water, depth)` from `src/equations.py`:
`c_water / (0.008 * depth**(3 / 2))`, where Python evaluates `3 / 2` to `1.5`.
For `depth < 0` Python float power returns a complex number (`NpVal.cplx`);
when the divisor is zero the plain-float division raises
`ZeroDivisionError`; otherwise the real quotient is returned. -/
noncomputable def cutoff_frequency (c_water depth : ℝ) : Except PyErr NpVal :=
  if depth < 0 then .ok .cplx
  else if 0.008 * depth ^ ((3 : ℝ) / 2) = 0 then .error .zeroDivisionError
  else .ok (.fin (c_water / (0.008 * depth ^ ((3 : ℝ) / 2))))

/-- `cutoff_frequency_shallow(c_water, c_bottom, depth)` from
`src/equations.py`: `c_water / (depth * np.sqrt(1 - (c_water / c_bottom)**2))`.
With `c_bottom = 0` the inner plain-float division raises
`ZeroDivisionError`. `np.sqrt` of a negative radicand yields NaN without
raising, and NaN propagates through the outer division; division of a
nonzero float by a numpy zero yields infinity (0/0 yields NaN), again
without raising. -/
noncomputable def cutoff_frequency_shallow (c_water c_bottom depth : ℝ) : Except PyErr NpVal :=
  if c_bottom = 0 then .error .zeroDivisionError
  else if 1 - (c_water / c_bottom) ^ 2 < 0 then .ok .nan
  else if depth * Real.sqrt (1 - (c_water / c_bottom) ^ 2) = 0 then
    .ok (if c_water = 0 then NpVal.nan else NpVal.inf)
  else .ok (.fin (c_water / (depth * Real.sqrt (1 - (c_water / c_bottom) ^ 2))))

/-! ## argo.py — profile retrieval -/

/-- A per-cast vertical profile as the retrieval code sees it: the pressure
samples of one cast, `none` marking a missing (NaN) reading. Temperature and
salinity play no role in the selection scan and are omitted. -/
structure ArgoProfile where
  pres : List (Option ℚ)
  deriving DecidableEq, Repr

/-- The external point-data service, abstracted as in the spec: one
capability mapping a bounding box, date range and pressure band to the
per-cast profiles, in the service's iteration order. -/
structure ArgoService where
  region : List ℚ → String → String → ℚ → ℚ → List ArgoProfile

/-- Python `list.append` takes exactly one argument; `get_profile` calls
`bbox.append(min_db, max_db, dtg_start, dtg_end)` with four, which raises
`TypeError` before anything else happens. -/
def list_append_arity (nargs : Nat) : Except PyErr Unit :=
  if nargs = 1 then .ok ()
  else .error (.typeError "append() takes exactly one argument")

/-- The selection loop of `get_profile` (`src/argo.py` lines 38-46). If the
profile list is nonempty, the first iteration executes
`num_samples = curr_pres[~np.isnan(curr_pres)]`, which references the
undefined name `curr_pres` (the assigned variable is `curr_press`) and
raises `NameError`; if it is empty, the loop body never runs and the final
`return argo_profile` references the undefined name `argo_profile` and
raises `NameError`. -/
def select_profile (profiles : List ArgoProfile) : Except PyErr ArgoProfile :=
  match profiles with
  | [] => .error (.nameError "argo_profile")
  | _ :: _ => .error (.nameError "curr_pres")

/-- `get_profile(bbox, dtg_start, dtg_end, min_db=0.0, max_db=2000.0)` from
`src/argo.py`, abstracted over the external service. The first statement is
the four-argument `bbox.append` call, whose `TypeError` propagates before
the service is queried; only on success would the query and the selection
scan run. -/
def get_profile (svc : ArgoService) (bbox : List ℚ) (dtg_start dtg_end : String)
    (min_db max_db : ℚ) : Except PyErr ArgoProfile :=
  match list_append_arity 4 with
  | .error e => .error e
  | .ok _ => select_profile (svc.region bbox dtg_start dtg_end min_db max_db)

/-- Modelled from the spec: the count of non-missing pressure samples of a
profile, used by the spec's selection threshold (the source's own counting
line is unreachable dead code due to the `curr_pres` NameError). -/
def presentCount (p : ArgoProfile) : ℕ :=
  (p.pres.filter Option.isSome).length

/-! ## Theorems for the claims -/

/-- Claim C9: for every service and every input, `get_profile` fails during
argument assembly — the bounding-box list's `append` is invoked with four
arguments, a `TypeError` for a Python list — so the function never performs
the remote query (its result is independent of the service) and never
returns a profile. -/
theorem get_profile_append_arity_failure
    (svc svc2 : ArgoService) (bbox : List ℚ) (dtg_start dtg_end : String)
    (min_db max_db : ℚ) :
    get_profile svc bbox dtg_start dtg_end min_db max_db
        = .error (.typeError "append() takes exactly one argument")
      ∧ get_profile svc bbox dtg_start dtg_end min_db max_db
        = get_profile svc2 bbox dtg_start dtg_end min_db max_db := by
  exact ⟨rfl, rfl⟩

/-- Claim C1 (code bug): `get_profile` never returns a profile at all, let
alone the first one meeting the density threshold — the four-argument
`bbox.append` raises `TypeError` before the service is queried, and the
selection scan itself references the undefined names `curr_pres` and
`argo_profile`. -/
theorem get_profile_never_returns_profile
    (svc : ArgoService) (bbox : List ℚ) (dtg_start dtg_end : String)
    (min_db max_db : ℚ) (p : ArgoProfile) :
    get_profile svc bbox dtg_start dtg_end min_db max_db ≠ .ok p := by
  simp [get_profile, list_append_arity]

/-- Claim C2 (code bug): when no profile's present-sample count reaches
`max_db / 2`, the selection scan does not raise the spec's
no-qualifying-data error and does not return a value either — it raises
`NameError` (`curr_pres` on a nonempty list, `argo_profile` on an empty
one). -/
theorem no_qualifying_profiles_not_reported
    (profiles : List ArgoProfile) (max_db : ℚ)
    (hlow : ∀ p ∈ profiles, (presentCount p : ℚ) < max_db / 2) :
    select_profile profiles ≠ .error .noQualifyingData
      ∧ ∀ p, select_profile profiles ≠ .ok p := by
  cases profiles with
  | nil => exact ⟨by simp [select_profile], fun p => by simp [select_profile]⟩
  | cons q qs => exact ⟨by simp [select_profile], fun p => by simp [select_profile]⟩

/-- Concrete instance of `no_qualifying_profiles_not_reported`: a single cast
with one present pressure sample against threshold 2000 / 2. -/
theorem no_qualifying_profiles_not_reported_witness :
    (∀ p ∈ [ArgoProfile.mk [some 1]], (presentCount p : ℚ) < 2000 / 2)
      ∧ (select_profile [ArgoProfile.mk [some 1]] ≠ .error .noQualifyingData
        ∧ ∀ p, select_profile [ArgoProfile.mk [some 1]] ≠ .ok p) := by
  have h : ∀ p ∈ [ArgoProfile.mk [some 1]], (presentCount p : ℚ) < 2000 / 2 := by
    intro p hp
    simp only [List.mem_singleton] at hp
    subst hp
    norm_num [presentCount]
  exact ⟨h, no_qualifying_profiles_not_reported [ArgoProfile.mk [some 1]] 2000 h⟩

/-- Claim C3 counterexample: at temperature -2 — outside the OPEN interval
(-2, 23) claimed for the domain check — with salinity 35 and depth 100, the
source does not signal a domain error: its non-strict comparisons accept the
endpoint and it computes a speed. -/
theorem leroy69_boundary_counterexample :
    sound_speed_seawater_leroy69 100 35 (-2) = .ok (1439.436 + 100 / 61) := by
  norm_num [sound_speed_seawater_leroy69]

/-- Claim C3 (amended to closed intervals): the validation errors exactly when
temperature is outside [-2, 23], salinity outside [30, 40] or depth outside
[0, 500], checked in that order with the first violated constraint naming the
error, and for in-range inputs such as temp=10, sal=35, depth=100 a speed is
returned. -/
theorem leroy69_validation_closed_intervals (depth sal temp : ℚ) :
    sound_speed_seawater_leroy69 depth sal temp = leroy69_amended_behaviour depth sal temp
      ∧ sound_speed_seawater_leroy69 100 35 10 = .ok (1489.74 + 100 / 61) := by
  constructor
  · unfold sound_speed_seawater_leroy69 leroy69_amended_behaviour
    by_cases h1 : temp < -2 ∨ temp > 23
    · rw [if_pos h1, if_neg (by simp only [Set.mem_Icc, not_and_or, not_le]; exact h1)]
    · have h1m : temp ∈ Set.Icc (-2 : ℚ) 23 := by
        push_neg at h1
        simpa [Set.mem_Icc] using h1
      rw [if_neg h1, if_pos h1m]
      by_cases h2 : sal < 30 ∨ sal > 40
      · rw [if_pos h2, if_neg (by simp only [Set.mem_Icc, not_and_or, not_le]; exact h2)]
      · have h2m : sal ∈ Set.Icc (30 : ℚ) 40 := by
          push_neg at h2
          simpa [Set.mem_Icc] using h2
        rw [if_neg h2, if_pos h2m]
        by_cases h3 : depth < 0 ∨ depth > 500
        · rw [if_pos h3, if_neg (by simp only [Set.mem_Icc, not_and_or, not_le]; exact h3)]
        · have h3m : depth ∈ Set.Icc (0 : ℚ) 500 := by
            push_neg at h3
            simpa [Set.mem_Icc] using h3
          rw [if_neg h3, if_pos h3m]
  · norm_num [sound_speed_seawater_leroy69]

/-- Claim C5 (code bug): none of the three unvalidated legacy sound-speed
functions evaluates its published equation. Mackenzie 1981 was line-split
into reassignments and returns 0 at (depth 0, sal 35, temp 10), where the
published nine-term equation gives 1489.8034; Leroy 2008 always raises
`NameError` on the undefined `tmep`; Leroy 1968 is not even compilable. -/
theorem legacy_formulas_diverge_from_published (d s t l : ℚ) (d2 l2 : ℝ) :
    sound_speed_sea_water_mackenzie81 0 35 10 = 0
      ∧ mackenzie81_published 0 35 10 = 1489.8034
      ∧ sound_speed_sea_water_mackenzie81 0 35 10 ≠ mackenzie81_published 0 35 10
      ∧ sound_speed_sea_water_leroy08 d s t l = .error (.nameError "tmep")
      ∧ sound_speed_seawater_leroy68 d2 l2 = .error .compileError := by
  refine ⟨?_, ?_, ?_, rfl, rfl⟩ <;>
    norm_num [sound_speed_sea_water_mackenzie81, mackenzie81_published]

/-- Claim C6 (code bug): `pressure_to_depth_leroy98` never returns a depth at
any pressure or latitude (its body references the undefined name `P`), so no
two pressures ever yield comparable depths, let alone monotonically
increasing ones. -/
theorem pressure_to_depth_never_returns (press lat d : ℝ) :
    pressure_to_depth_leroy98 press lat none ≠ .ok d := by
  simp [pressure_to_depth_leroy98]

/-- Claim C7 (code bug): the corrective term is purely additive for
`international_gravity_formula`, but `pressure_to_depth_leroy98` raises
`NameError` on every call, corrective term or not, so the claimed additivity
equation for it never relates two returned values. -/
theorem corrective_term_additivity_gravity_only :
    (∀ lat c : ℝ, international_gravity_formula lat (some c)
        = international_gravity_formula lat none + c)
      ∧ ∀ (press lat : ℝ) (c : Option ℝ),
          pressure_to_depth_leroy98 press lat c = .error (.nameError "P") :=
  ⟨fun lat c => rfl, fun press lat c => rfl⟩

/-- Claim C10: at depth 0 the divisor `0.008 * depth**(3/2)` of
`cutoff_frequency` is zero and the plain-float division raises
`ZeroDivisionError`; no value is returned. -/
theorem cutoff_frequency_zero_depth_division (c_water : ℝ) :
    cutoff_frequency c_water 0 = .error .zeroDivisionError := by
  unfold cutoff_frequency
  have h0 : (0.008 : ℝ) * (0 : ℝ) ^ ((3 : ℝ) / 2) = 0 := by
    rw [Real.zero_rpow (by norm_num)]
    ring
  rw [if_neg (lt_irrefl (0 : ℝ)), if_pos h0]

/-- Claim C8 counterexample: at depth 0 `cutoff_frequency` does not return
`c_water / (0.008 * depth ** 1.5)` — it raises `ZeroDivisionError`. -/
theorem cutoff_frequency_depth_zero_counterexample :
    cutoff_frequency 1500 0 = .error .zeroDivisionError := by
  unfold cutoff_frequency
  have h0 : (0.008 : ℝ) * (0 : ℝ) ^ ((3 : ℝ) / 2) = 0 := by
    rw [Real.zero_rpow (by norm_num)]
    ring
  rw [if_neg (lt_irrefl (0 : ℝ)), if_pos h0]

/-- Claim C8 (amended to positive depth): for every speed and every depth
strictly greater than 0, `cutoff_frequency` returns
`c_water / (0.008 * depth ** (3/2))`. -/
theorem cutoff_frequency_positive_depth (c_water depth : ℝ) (h : 0 < depth) :
    cutoff_frequency c_water depth
      = .ok (.fin (c_water / (0.008 * depth ^ ((3 : ℝ) / 2)))) := by
  unfold cutoff_frequency
  have hpos : (0 : ℝ) < 0.008 * depth ^ ((3 : ℝ) / 2) :=
    mul_pos (by norm_num) (Real.rpow_pos_of_pos h _)
  rw [if_neg (not_lt.mpr h.le), if_neg (ne_of_gt hpos)]

/-- Concrete instance of `cutoff_frequency_positive_depth` at depth 4, where
`4 ** 1.5 = 8` and the frequency is `1500 / 0.064 = 23437.5`. -/
theorem cutoff_frequency_positive_depth_witness :
    (0 : ℝ) < 4 ∧ cutoff_frequency 1500 4 = .ok (.fin 23437.5) := by
  have h4 : (4 : ℝ) ^ ((3 : ℝ) / 2) = 8 := by
    rw [show (4 : ℝ) = (2 : ℝ) ^ (2 : ℕ) by norm_num,
      ← Real.rpow_natCast (2 : ℝ) 2, ← Real.rpow_mul (by norm_num : (0 : ℝ) ≤ 2),
      show ((2 : ℕ) : ℝ) * ((3 : ℝ) / 2) = ((3 : ℕ) : ℝ) by norm_num,
      Real.rpow_natCast]
    norm_num
  refine ⟨by norm_num, ?_⟩
  rw [cutoff_frequency_positive_depth 1500 4 (by norm_num), h4]
  norm_num

/-- Claim C4 (code bug): with `c_bottom ≤ c_water` the shallow-water cutoff
silently produces NaN (at c_water=1500, c_bottom=1490, depth=50) instead of
raising a non-real-result error; with `c_bottom > c_water` it returns a
finite positive frequency (37.5 Hz at c_bottom=2500, and a positive value at
the spec's example c_bottom=1600). -/
theorem cutoff_shallow_nan_not_error :
    cutoff_frequency_shallow 1500 1490 50 = .ok .nan
      ∧ cutoff_frequency_shallow 1500 2500 50 = .ok (.fin 37.5)
      ∧ ∃ v : ℝ, cutoff_frequency_shallow 1500 1600 50 = .ok (.fin v) ∧ 0 < v := by
  refine ⟨?_, ?_, ?_⟩
  · unfold cutoff_frequency_shallow
    rw [if_neg (by norm_num : (1490 : ℝ) ≠ 0),
      if_pos (by norm_num : (1 : ℝ) - ((1500 : ℝ) / 1490) ^ 2 < 0)]
  · unfold cutoff_frequency_shallow
    have hs : Real.sqrt (1 - ((1500 : ℝ) / 2500) ^ 2) = 4 / 5 := by
      rw [show (1 : ℝ) - ((1500 : ℝ) / 2500) ^ 2 = (4 / 5) ^ 2 by norm_num]
      exact Real.sqrt_sq (by norm_num)
    rw [if_neg (by norm_num : (2500 : ℝ) ≠ 0),
      if_neg (by norm_num : ¬((1 : ℝ) - ((1500 : ℝ) / 2500) ^ 2 < 0)),
      if_neg (by rw [hs]; norm_num), hs]
    norm_num
  · have hr : (0 : ℝ) < 1 - ((1500 : ℝ) / 1600) ^ 2 := by norm_num
    have hs : 0 < Real.sqrt (1 - ((1500 : ℝ) / 1600) ^ 2) := Real.sqrt_pos.mpr hr
    refine ⟨1500 / (50 * Real.sqrt (1 - ((1500 : ℝ) / 1600) ^ 2)), ?_, ?_⟩
    · unfold cutoff_frequency_shallow
      rw [if_neg (by norm_num : (1600 : ℝ) ≠ 0), if_neg (not_lt.mpr hr.le),
        if_neg (ne_of_gt (mul_pos (by norm_num) hs))]
    · exact div_pos (by norm_num) (mul_pos (by norm_num) hs)
